import Mathlib

/-!
Verification development for the djangosaml2 service-provider views
(`src/djangosaml2/views.py`): a shallow embedding of the five HTTP
endpoint controllers (`login`, `assertion_consumer_service`, `logout`,
`logout_service`, `metadata`, plus the auxiliary `echo_attributes`)
together with the session-bound caches they mutate.

Modelling conventions:
* The SAML protocol engine (`pysaml2`'s `Saml2Client`), the Django
  authentication backend, and the signal subscriber are external
  collaborators; every endpoint is parametrised by the outcome of the
  engine/backend call it performs, so theorems quantify over all engine
  behaviours.
* Each endpoint returns an `Outcome` (a normal `HttpResponse` or a raised
  Python exception) paired with the ordered list of session-mutating
  events (`Ev`) it performed.  Folding the event list over a `Session`
  with `applyEv` yields the final session state; ordering claims
  ("write X before returning the redirect") are read off the trace.
* `raise Http404` is converted by the Django framework into a graceful
  404 response, so it is modelled as a normal `HttpResponse.notFound`;
  `KeyError` / `AssertionError` / `TypeError` propagate as crashes and
  are modelled as `Outcome` errors.
-/

namespace Djangosaml2

/-- An asserted attribute statement: attribute name to list of values. -/
abbrev AttributeMapping := List (String × List String)

/-- A Python exception escaping the view (unhandled, a server error). -/
inductive PyError where
  | keyError (key : String)
  | assertionError
  | typeError (msg : String)
  | indexError
  deriving DecidableEq, Repr

/-- The HTTP responses the views produce. -/
inductive HttpResponse where
  /-- A plain 200 `HttpResponse(body)`. -/
  | ok (body : String)
  /-- A 200 `HttpResponse` with an explicit content type (metadata). -/
  | content (body contentType : String)
  /-- A 302 `HttpResponseRedirect`. -/
  | redirect (location : String)
  /-- A 400 `HttpResponseBadRequest`. -/
  | badRequest (body : String)
  /-- The 405 response produced by the `require_POST` decorator. -/
  | notAllowed
  /-- The 404 page Django renders for a raised `Http404`. -/
  | notFound (msg : String)
  /-- A 200 `render_to_response(template, context)`. -/
  | render (template : String) (context : List (String × String))
  /-- A 200 wayf/discovery page carrying the IdP list and destination. -/
  | renderWayf (template : String) (availableIdps : List (String × String))
      (cameFrom : String)
  deriving DecidableEq, Repr

/-- Result of running a view: a response, or a Python exception. -/
abbrev Outcome := Except PyError HttpResponse

/-- Is the response status in the 4xx class? -/
def HttpResponse.is4xx : HttpResponse → Bool
  | .badRequest _ => true
  | .notAllowed => true
  | .notFound _ => true
  | _ => false

/-- Is the response an HTTP redirect? -/
def HttpResponse.isRedirect : HttpResponse → Bool
  | .redirect _ => true
  | _ => false

/-- The per-browser-session state the views read and mutate.
`subjectId` is the `_saml2_subject_id` key; `outstandingQueries`,
`identityCache` and `protocolState` are the three framework-namespaced
session caches; `authUser` stands for Django's own auth keys written by
`auth.login`. -/
structure Session where
  subjectId : Option String
  outstandingQueries : List (String × String)
  identityCache : List (String × String)
  protocolState : Option String
  authUser : Option String
  deriving DecidableEq, Repr

/-- A session with nothing in it (also the result of `session.flush()`). -/
def Session.empty : Session :=
  { subjectId := none, outstandingQueries := [], identityCache := [],
    protocolState := none, authUser := none }

/-- The session-mutating (and engine-calling) events a view performs, in
program order. -/
inductive Ev where
  /-- Event `OutstandingQueriesCache.set(sessionId, cameFrom)`. -/
  | oqSet (key value : String)
  /-- Event `OutstandingQueriesCache.delete(sessionId)`. -/
  | oqDelete (key : String)
  /-- Event `_set_subject_id(session, nameId)`. -/
  | setSubjectId (subject : String)
  /-- Django `auth.login(request, user)`. -/
  | authLogin (user : String)
  /-- Django `auth.logout(request)` / `django_logout`: `session.flush()`. -/
  | flush
  /-- Event `StateCache.sync()`: persist the engine's protocol-state blob. -/
  | sync (blob : String)
  /-- A call into the external protocol engine (no session change by this
  layer; named for ordering claims). -/
  | engineCall (name : String)
  /-- Event `post_authenticated.send_robust(...)` (no session change). -/
  | signalEmit
  deriving DecidableEq, Repr

/-- Modelled from the spec: `OutstandingQueriesCache.set` of
`djangosaml2.cache` (not under `src/`) stores `requestID → destinationURL`
in the session's outstanding-query map, overwriting any entry under the
same key. -/
def oqInsert (m : List (String × String)) (k v : String) :
    List (String × String) :=
  m.filter (fun p => p.1 ≠ k) ++ [(k, v)]

/-- Modelled from the spec: `OutstandingQueriesCache.delete` of
`djangosaml2.cache` (not under `src/`) removes the entry under the given
request identifier, idempotently if it is absent. -/
def oqRemove (m : List (String × String)) (k : String) :
    List (String × String) :=
  m.filter (fun p => p.1 ≠ k)

/-- Apply one event to a session. `flush` models Django's
`session.flush()` (performed by `auth.logout`), which discards every key. -/
def applyEv (s : Session) : Ev → Session
  | .oqSet k v => { s with outstandingQueries := oqInsert s.outstandingQueries k v }
  | .oqDelete k => { s with outstandingQueries := oqRemove s.outstandingQueries k }
  | .setSubjectId x => { s with subjectId := some x }
  | .authLogin u => { s with authUser := some u }
  | .flush => Session.empty
  | .sync b => { s with protocolState := some b }
  | .engineCall _ => s
  | .signalEmit => s

/-- Fold a view's event trace over the incoming session. -/
def runEvs (s : Session) (evs : List Ev) : Session := evs.foldl applyEv s

/-- First-match association-list lookup. -/
def alistGet (m : List (String × String)) (k : String) : Option String :=
  match m with
  | [] => none
  | (k1, v1) :: t => if k1 = k then some v1 else alistGet t k

/-- Python `dict(pairs)[k]` as an option: with duplicate keys the later
pair wins. -/
def dictGet (l : List (String × String)) (k : String) : Option String :=
  alistGet l.reverse k

/-- Modelled from the spec: `get_custom_setting(name, default)` of
`djangosaml2.utils` (not under `src/`) returns the configured setting when
present, the built-in default otherwise. -/
def get_custom_setting {α : Type} (setting : Option α) (default : α) : α :=
  setting.getD default

/-- The Django settings and custom settings the views read. -/
structure Settings where
  loginRedirectUrl : String
  samlAttributeMapping : Option AttributeMapping
  samlCreateUnknownUser : Option Bool
  samlValidFor : Option Nat
  deriving Repr

/-- A per-call view argument that in Python may be absent (`None`), a
static value, or a callable producing a value (`computedVal a` is a
callable whose call returns `a`; a function object is always truthy). -/
inductive PerCall (α : Type) where
  | absent
  | static (a : α)
  | computedVal (a : α)
  deriving DecidableEq, Repr

/-- The Python idiom `x = x or default` followed by
`if callable(x): x = x()` as in `assertion_consumer_service`:
`falsy` decides the truthiness of a static value. -/
def resolvePerCall {α : Type} (falsy : α → Bool) (x : PerCall α)
    (default : α) : α :=
  match x with
  | .absent => default
  | .static a => if falsy a then default else a
  | .computedVal a => a

/-- The idiom `valid_for or get_custom_setting(SAML_VALID_FOR, 24)`: `0` and
`None` are both falsy. -/
def pyOrNat (x : Option Nat) (default : Nat) : Nat :=
  match x with
  | none => default
  | some n => if n = 0 then default else n

/-! ## The `login` view (LoginInitiator) -/

/-- The request-dependent inputs of the `login` view. -/
structure LoginRequest where
  /-- Negation of `not request.user.is_anonymous()`: true when anonymous. -/
  userIsAnonymous : Bool
  /-- Parameter `request.GET.get(next, ...)`. -/
  nextParam : Option String
  /-- Parameter `request.GET.get(idp, None)`. -/
  idpParam : Option String
  deriving DecidableEq, Repr

/-- The view `djangosaml2.views.login`.  `idps` is `conf.idps()` (identifier,
display name); `authenticate` is the outcome of
`client.authenticate(entityid, relay_state, binding)`: `Except.error e`
models a raised `TypeError` with message `e`, `Except.ok (sid, result)`
the `(session_id, result)` pair, `result` a Python tuple as a list (the
view asserts `len(result) == 2` and `result[0] == 'Location'`). -/
def login (settings : Settings) (idps : List (String × String))
    (authenticate : Except String (String × List String))
    (req : LoginRequest) : Outcome × List Ev :=
  let came_from := req.nextParam.getD settings.loginRedirectUrl
  if req.userIsAnonymous = false then
    (.ok (.render "djangosaml2/auth_error.html" [("came_from", came_from)]), [])
  else if req.idpParam.isNone && decide (idps.length > 1) then
    (.ok (.renderWayf "djangosaml2/wayf.html" idps came_from), [])
  else
    match authenticate with
    | .error e => (.ok (.ok e), [.engineCall "authenticate"])
    | .ok (session_id, result) =>
      if result.length = 2 then
        if result.headD "" = "Location" then
          (.ok (.redirect (result.getD 1 "")),
           [.engineCall "authenticate", .oqSet session_id came_from])
        else (.error .assertionError, [.engineCall "authenticate"])
      else (.error .assertionError, [.engineCall "authenticate"])

/-! ## The `assertion_consumer_service` view (AssertionConsumer) -/

/-- Session info `(name_id, ava)` the engine info the engine extracts from a
validated response (`response.session_info()`). -/
structure SessionInfo where
  nameId : String
  ava : AttributeMapping
  deriving DecidableEq, Repr

/-- What `client.response(post, outstanding_queries)` yields when it is
not `None`: the correlation identifier `response.session_id()` and the
`response.session_info()` payload. -/
structure ValidatedResponse where
  sessionId : String
  sessionInfo : SessionInfo
  deriving DecidableEq, Repr

/-- The request-dependent inputs of `assertion_consumer_service`. -/
structure AcsRequest where
  /-- Field `request.method`; the `require_POST` decorator rejects the rest. -/
  method : String
  /-- Field `SAMLResponse` of `request.POST` when present. -/
  postSamlResponse : Option String
  /-- Source of `request.POST.get(RelayState, /)`. -/
  postRelayState : Option String
  deriving DecidableEq, Repr

/-- The view `djangosaml2.views.assertion_consumer_service`.

`engineResponse payload outstanding` is the outcome of
`client.response(post, outstanding_queries)` (`none` models Python
`None`); `backendAuth sessionInfo am cu` is
`auth.authenticate(session_info=…, attribute_mapping=am,
create_unknown_user=cu)`; `subscriber` is the registered
`post_authenticated` receiver's outcome — `send_robust` catches receiver
exceptions and returns them, so the trace and the response are built
independently of it. -/
def assertion_consumer_service (settings : Settings)
    (engineResponse : String → List (String × String) → Option ValidatedResponse)
    (backendAuth : SessionInfo → AttributeMapping → Bool → Option String)
    (_subscriber : Except String Unit)
    (attribute_mapping : PerCall AttributeMapping)
    (create_unknown_user : PerCall Bool)
    (req : AcsRequest) (session : Session) : Outcome × List Ev :=
  if req.method ≠ "POST" then (.ok .notAllowed, [])
  else
    let am := resolvePerCall List.isEmpty attribute_mapping
      (get_custom_setting settings.samlAttributeMapping [("uid", ["username"])])
    let cu := resolvePerCall (fun b => !b) create_unknown_user
      (get_custom_setting settings.samlCreateUnknownUser true)
    match req.postSamlResponse with
    | none => (.ok (.badRequest "Couldnt find SAMLResponse in POST data."), [])
    | some payload =>
      match engineResponse payload session.outstandingQueries with
      | none =>
        (.ok (.badRequest "SAML response has errors. Please check the logs"),
         [.engineCall "response"])
      | some resp =>
        match backendAuth resp.sessionInfo am cu with
        | none =>
          (.ok (.ok "There were problems trying to authenticate the user"),
           [.engineCall "response", .oqDelete resp.sessionId])
        | some user =>
          (.ok (.redirect (req.postRelayState.getD "/")),
           [.engineCall "response", .oqDelete resp.sessionId,
            .authLogin user, .setSubjectId resp.sessionInfo.nameId,
            .signalEmit])

/-! ## The `echo_attributes` view -/

/-- The view `djangosaml2.views.echo_attributes`.  `getIdentity subjectId` is
`client.users.get_identity(subject_id, check_not_on_or_after=False)`,
a pair whose first component is the attribute set.  The `login_required`
decorator guards Django authentication, not the SAML subject id, whose
unguarded lookup can still raise `KeyError`. -/
def echo_attributes (getIdentity : String → AttributeMapping × List String)
    (session : Session) : Outcome × List Ev :=
  match session.subjectId with
  | none => (.error (.keyError "_saml2_subject_id"), [])
  | some subject_id =>
    let _identity := getIdentity subject_id
    (.ok (.render "djangosaml2/echo_attributes.html" []),
     [.engineCall "get_identity"])

/-! ## The `logout` view (LogoutInitiator) -/

/-- The view `djangosaml2.views.logout`.

`globalLogout subjectId` is `client.global_logout(subject_id)`, the
`(session_id, code, head, body)` tuple with `head` a list of header
pairs; `newState` is the protocol-state blob the engine left in the
`StateCache` for `state.sync()` to persist.  The view is decorated with
`login_required` (Django authentication guarded externally), but the
`_get_subject_id` lookup is unguarded and raises `KeyError` when the
session holds no subject id. -/
def logout
    (globalLogout : String → String × String × List (String × String) × String)
    (newState : String) (session : Session) : Outcome × List Ev :=
  match session.subjectId with
  | none => (.error (.keyError "_saml2_subject_id"), [])
  | some subject_id =>
    let r := globalLogout subject_id
    let head := r.2.2.1
    match dictGet head "Location" with
    | some location =>
      (.ok (.redirect location), [.engineCall "global_logout", .sync newState])
    | none =>
      (.error (.keyError "Location"), [.engineCall "global_logout", .sync newState])

/-! ## The `logout_service` view (LogoutResponder) -/

/-- The request-dependent inputs of `logout_service`. -/
structure LogoutSvcRequest where
  /-- Field `SAMLResponse` of `request.GET` when present (Mode A). -/
  getSamlResponse : Option String
  /-- Field `SAMLRequest` of `request.GET` when present (Mode B). -/
  getSamlRequest : Option String
  deriving DecidableEq, Repr

/-- Django's `django.contrib.auth.views.logout(request, next_page)`: flushes the
session; redirects to `next_page` when given, otherwise renders the
logged-out template. -/
def djangoLogoutResponse (next_page : Option String) : HttpResponse :=
  match next_page with
  | some url => .redirect url
  | none => .render "registration/logged_out.html" []

/-- The view `djangosaml2.views.logout_service`.

`logoutResponse payload` is `client.logout_response(payload,
binding=BINDING_HTTP_REDIRECT)`: `none` models `None`, otherwise a tuple
whose second component (`response[1]`) is the status text the view
compares with `'200 Ok'`.  `logoutRequest subjectId` is
`client.logout_request(request.GET, subject_id)`, the `(response,
success)` pair, `response` either `None` or a list of header pairs the
view indexes as `response[0][0] == 'Location'`.  `newState` is the blob
`state.sync()` persists in each engine branch. -/
def logout_service
    (logoutResponse : String → Option (String × String))
    (logoutRequest : String → Option (List (String × String)) × Bool)
    (newState : String) (next_page : Option String)
    (req : LogoutSvcRequest) (session : Session) : Outcome × List Ev :=
  match req.getSamlResponse with
  | some payload =>
    match logoutResponse payload with
    | some r =>
      if r.2 = "200 Ok" then
        (.ok (djangoLogoutResponse next_page),
         [.engineCall "logout_response", .sync newState, .flush])
      else
        (.ok (.ok "Error during logout"),
         [.engineCall "logout_response", .sync newState])
    | none =>
      (.ok (.ok "Error during logout"),
       [.engineCall "logout_response", .sync newState])
  | none =>
    match req.getSamlRequest with
    | some _payload =>
      match session.subjectId with
      | none => (.error (.keyError "_saml2_subject_id"), [])
      | some subject_id =>
        match logoutRequest subject_id with
        | (response, true) =>
          let evs := [.engineCall "logout_request", .sync newState, .flush]
          match response with
          | some ((hk, hv) :: _) =>
            if hk = "Location" then (.ok (.redirect hv), evs)
            else (.error .assertionError, evs)
          | some [] => (.error .indexError, evs)
          | none => (.error (.typeError "NoneType is not subscriptable"), evs)
        | (response, false) =>
          let evs := [.engineCall "logout_request", .sync newState]
          match response with
          | some ((hk, hv) :: _) =>
            if hk = "Location" then (.ok (.redirect hv), evs)
            else (.error .assertionError, evs)
          | some [] => (.error .indexError, evs)
          | none => (.ok (.ok "Error during logout"), evs)
    | none =>
      (.ok (.notFound "No SAMLResponse or SAMLRequest parameter found"), [])

/-! ## The `metadata` view -/

/-- The view `djangosaml2.views.metadata`.  `entityDescriptor vf` is
`str(entity_descriptor(conf, vf))` for the resolved validity (in hours). -/
def metadata (entityDescriptor : Nat → String)
    (samlValidFor : Option Nat) (valid_for : Option Nat) : Outcome × List Ev :=
  let vf := pyOrNat valid_for (get_custom_setting samlValidFor 24)
  (.ok (.content (entityDescriptor vf) "text/xml; charset=utf8"), [])

end Djangosaml2

namespace Djangosaml2

/-! ## Helper lemmas about the outstanding-query map -/

/-- Filtering a key out of an association list makes its lookup fail. -/
theorem alistGet_filter_ne (m : List (String × String)) (k : String) :
    alistGet (m.filter fun p => p.1 ≠ k) k = none := by
  induction m with
  | nil => rfl
  | cons a t ih =>
    obtain ⟨a1, a2⟩ := a
    by_cases h : a1 = k
    · simpa [List.filter_cons, h] using ih
    · simpa [List.filter_cons, h, alistGet] using ih

/-- Lemma: `OutstandingQueriesCache.set` makes the stored value retrievable. -/
theorem alistGet_oqInsert (m : List (String × String)) (k v : String) :
    alistGet (oqInsert m k v) k = some v := by
  unfold oqInsert
  induction m with
  | nil => simp [alistGet]
  | cons a t ih =>
    obtain ⟨a1, a2⟩ := a
    by_cases h : a1 = k
    · simpa [List.filter_cons, h] using ih
    · simpa [List.filter_cons, h, alistGet] using ih

/-- Lemma: `OutstandingQueriesCache.delete` removes the entry outright. -/
theorem alistGet_oqRemove (m : List (String × String)) (k : String) :
    alistGet (oqRemove m k) k = none :=
  alistGet_filter_ne m k

example :
    (login ⟨"/", none, none, none⟩ [("idp1", "IdP One")]
      (.ok ("id-1", ["Location", "https://idp.example/sso"]))
      ⟨true, some "/dashboard", none⟩).1
    = .ok (.redirect "https://idp.example/sso") := rfl

example :
    runEvs Session.empty
      (login ⟨"/", none, none, none⟩ [("idp1", "IdP One")]
        (.ok ("id-1", ["Location", "https://idp.example/sso"]))
        ⟨true, some "/dashboard", none⟩).2
    = { Session.empty with outstandingQueries := [("id-1", "/dashboard")] } := rfl

/-! ## Claim theorems -/

/-- Claim C6. For every LoginInitiator request from an unauthenticated caller
with no `idp` parameter while more than one IdP is configured, the endpoint
returns the discovery (wayf) page carrying all configured IdPs and the
destination as a terminal response: no redirect is issued and no
outstanding query (no session state at all) is written. -/
theorem c6_login_discovery_page_no_state
    (settings : Settings) (idps : List (String × String))
    (authenticate : Except String (String × List String))
    (req : LoginRequest) (session : Session)
    (hanon : req.userIsAnonymous = true)
    (hidp : req.idpParam = none)
    (hmany : 1 < idps.length) :
    login settings idps authenticate req =
      (.ok (.renderWayf "djangosaml2/wayf.html" idps
        (req.nextParam.getD settings.loginRedirectUrl)), [])
    ∧ runEvs session (login settings idps authenticate req).2 = session := by
  have h1 : login settings idps authenticate req =
      (.ok (.renderWayf "djangosaml2/wayf.html" idps
        (req.nextParam.getD settings.loginRedirectUrl)), []) := by
    unfold login
    simp [hanon, hidp, hmany]
  refine ⟨h1, ?_⟩
  rw [h1]
  rfl

/-- Claim C6 witness. Concrete run: two configured IdPs, anonymous caller,
no `idp` parameter. -/
theorem c6_witness :
    (⟨true, some "/dashboard", none⟩ : LoginRequest).userIsAnonymous = true
    ∧ login ⟨"/", none, none, none⟩ [("a", "IdP A"), ("b", "IdP B")]
        (.ok ("id-1", ["Location", "https://idp.example/sso"]))
        ⟨true, some "/dashboard", none⟩ =
      (.ok (.renderWayf "djangosaml2/wayf.html" [("a", "IdP A"), ("b", "IdP B")]
        "/dashboard"), []) :=
  ⟨rfl,
    (c6_login_discovery_page_no_state ⟨"/", none, none, none⟩
      [("a", "IdP A"), ("b", "IdP B")]
      (.ok ("id-1", ["Location", "https://idp.example/sso"]))
      ⟨true, some "/dashboard", none⟩ Session.empty rfl rfl (by decide)).1⟩

/-- Claim C2. Whenever the `login` view returns an HTTP redirect to the
identity provider, its event trace consists of the engine call followed by
the outstanding-query write mapping the issued request identifier to the
resolved destination, so the write is performed before the redirect is
returned and the entry is retrievable from the resulting session; a
redirect is never produced without that write. -/
theorem c2_login_redirect_requires_outstanding_write
    (settings : Settings) (idps : List (String × String))
    (authenticate : Except String (String × List String))
    (req : LoginRequest) (session : Session) (loc : String)
    (h : (login settings idps authenticate req).1 = .ok (.redirect loc)) :
    ∃ sid,
      (login settings idps authenticate req).2 =
        [.engineCall "authenticate",
         .oqSet sid (req.nextParam.getD settings.loginRedirectUrl)] ∧
      alistGet (runEvs session
          (login settings idps authenticate req).2).outstandingQueries sid
        = some (req.nextParam.getD settings.loginRedirectUrl) := by
  unfold login at h
  by_cases h1 : req.userIsAnonymous = false
  · simp [h1] at h
  · by_cases h2 : (req.idpParam.isNone && decide (idps.length > 1)) = true
    · simp [h1, h2] at h
    · match hauth : authenticate with
      | .error e =>
        simp [h1, h2] at h
      | .ok (sid, result) =>
        by_cases h3 : result.length = 2
        · by_cases h4 : result.head?.getD "" = "Location"
          · refine ⟨sid, ?_, ?_⟩
            · unfold login
              simp [h1, h2, h3, h4]
            · unfold login
              simp [h1, h2, h3, h4, runEvs, applyEv, alistGet_oqInsert]
          · simp [h1, h2, h3, h4] at h
        · simp [h1, h2, h3] at h

/-- Claim C2 witness. Concrete redirecting login run. -/
theorem c2_witness :
    (login ⟨"/", none, none, none⟩ [("idp1", "IdP One")]
        (.ok ("id-1", ["Location", "https://idp.example/sso"]))
        ⟨true, some "/dashboard", none⟩).1
      = .ok (.redirect "https://idp.example/sso")
    ∧ ∃ sid,
      (login ⟨"/", none, none, none⟩ [("idp1", "IdP One")]
          (.ok ("id-1", ["Location", "https://idp.example/sso"]))
          ⟨true, some "/dashboard", none⟩).2 =
        [.engineCall "authenticate", .oqSet sid "/dashboard"] ∧
      alistGet (runEvs Session.empty
          (login ⟨"/", none, none, none⟩ [("idp1", "IdP One")]
            (.ok ("id-1", ["Location", "https://idp.example/sso"]))
            ⟨true, some "/dashboard", none⟩).2).outstandingQueries sid
        = some "/dashboard" :=
  ⟨rfl,
    c2_login_redirect_requires_outstanding_write ⟨"/", none, none, none⟩
      [("idp1", "IdP One")] (.ok ("id-1", ["Location", "https://idp.example/sso"]))
      ⟨true, some "/dashboard", none⟩ Session.empty "https://idp.example/sso" rfl⟩

/-- Claim C3. Every `assertion_consumer_service` invocation whose method is
not POST, whose `SAMLResponse` field is missing, or whose payload the
protocol engine rejects (returns `None`), yields a 4xx response and
performs no session mutation at all — in particular `subjectID`, the
outstanding-query map and the identity cache are unchanged. -/
theorem c3_acs_failure_4xx_no_mutation
    (settings : Settings)
    (engineResponse : String → List (String × String) → Option ValidatedResponse)
    (backendAuth : SessionInfo → AttributeMapping → Bool → Option String)
    (sub : Except String Unit)
    (am : PerCall AttributeMapping) (cu : PerCall Bool)
    (req : AcsRequest) (session : Session)
    (h : req.method ≠ "POST" ∨ req.postSamlResponse = none ∨
         ∃ p, req.postSamlResponse = some p ∧
           engineResponse p session.outstandingQueries = none) :
    ∃ r, (assertion_consumer_service settings engineResponse backendAuth sub
            am cu req session).1 = .ok r
      ∧ r.is4xx = true
      ∧ runEvs session (assertion_consumer_service settings engineResponse
          backendAuth sub am cu req session).2 = session := by
  by_cases hm : req.method = "POST"
  · rcases h with h | h | ⟨p, hp, he⟩
    · exact absurd hm h
    · refine ⟨.badRequest "Couldnt find SAMLResponse in POST data.", ?_, rfl, ?_⟩
      · unfold assertion_consumer_service
        simp [hm, h]
      · unfold assertion_consumer_service
        simp [hm, h, runEvs]
    · refine ⟨.badRequest "SAML response has errors. Please check the logs",
        ?_, rfl, ?_⟩
      · unfold assertion_consumer_service
        simp [hm, hp, he]
      · unfold assertion_consumer_service
        simp [hm, hp, he, runEvs, applyEv]
  · refine ⟨.notAllowed, ?_, rfl, ?_⟩
    · unfold assertion_consumer_service
      simp [hm]
    · unfold assertion_consumer_service
      simp [hm, runEvs]

/-- Claim C3 witness. Concrete run: a POST with the `SAMLResponse` field
missing. -/
theorem c3_witness :
    ((⟨"POST", none, some "/next"⟩ : AcsRequest).method ≠ "POST" ∨
      (⟨"POST", none, some "/next"⟩ : AcsRequest).postSamlResponse = none ∨
      ∃ p, (⟨"POST", none, some "/next"⟩ : AcsRequest).postSamlResponse = some p ∧
        (fun _ _ => (none : Option ValidatedResponse)) p
          Session.empty.outstandingQueries = none)
    ∧ ∃ r, (assertion_consumer_service ⟨"/", none, none, none⟩
          (fun _ _ => none) (fun _ _ _ => none) (.ok ())
          .absent .absent ⟨"POST", none, some "/next"⟩ Session.empty).1 = .ok r
        ∧ r.is4xx = true
        ∧ runEvs Session.empty (assertion_consumer_service ⟨"/", none, none, none⟩
            (fun _ _ => none) (fun _ _ _ => none) (.ok ())
            .absent .absent ⟨"POST", none, some "/next"⟩ Session.empty).2
          = Session.empty :=
  ⟨Or.inr (Or.inl rfl),
    c3_acs_failure_4xx_no_mutation ⟨"/", none, none, none⟩
      (fun _ _ => none) (fun _ _ _ => none) (.ok ()) .absent .absent
      ⟨"POST", none, some "/next"⟩ Session.empty (Or.inr (Or.inl rfl))⟩

/-- Claim C9. A `logout_service` Mode B invocation (`SAMLRequest` present)
against a session holding no stored subject identifier fails with the
raised `KeyError` of the unguarded `_get_subject_id` lookup, for every
possible engine behaviour and before any engine call or session write
(the trace is empty): a present `subjectID` is an unstated precondition
of Mode B. -/
theorem c9_logout_service_mode_b_missing_subject_raises
    (logoutResponse : String → Option (String × String))
    (logoutRequest : String → Option (List (String × String)) × Bool)
    (newState : String) (next_page : Option String)
    (req : LogoutSvcRequest) (session : Session) (p : String)
    (hresp : req.getSamlResponse = none)
    (hreq : req.getSamlRequest = some p)
    (hsub : session.subjectId = none) :
    logout_service logoutResponse logoutRequest newState next_page req session
      = (.error (.keyError "_saml2_subject_id"), []) := by
  unfold logout_service
  simp [hresp, hreq, hsub]

/-- Claim C9 witness. Concrete Mode B request against an empty session. -/
theorem c9_witness :
    (⟨none, some "req-payload"⟩ : LogoutSvcRequest).getSamlResponse = none
    ∧ Session.empty.subjectId = none
    ∧ logout_service (fun _ => none) (fun _ => (none, false)) "st" none
        ⟨none, some "req-payload"⟩ Session.empty
      = (.error (.keyError "_saml2_subject_id"), []) :=
  ⟨rfl, rfl,
    c9_logout_service_mode_b_missing_subject_raises (fun _ => none)
      (fun _ => (none, false)) "st" none ⟨none, some "req-payload"⟩
      Session.empty "req-payload" rfl rfl rfl⟩

/-- Claim C8. For every `logout` (LogoutInitiator) invocation by a caller
whose session holds a subject identifier, the engine's updated
protocol-state blob is synced to the session (the `sync` event precedes
the function's return in the trace and the final session carries the
blob), and the endpoint redirects to the `Location` header of the
engine's `global_logout` result; when the headers carry no `Location`
entry the view fails with a raised `KeyError` — no locally recoverable
response is produced (the state sync still having happened first). -/
theorem c8_logout_syncs_state_and_redirects_to_location
    (globalLogout : String → String × String × List (String × String) × String)
    (newState : String) (session : Session) (sid : String)
    (hsub : session.subjectId = some sid) :
    (logout globalLogout newState session).2 =
      [.engineCall "global_logout", .sync newState]
    ∧ (runEvs session (logout globalLogout newState session).2).protocolState
        = some newState
    ∧ (∀ loc, dictGet (globalLogout sid).2.2.1 "Location" = some loc →
        (logout globalLogout newState session).1 = .ok (.redirect loc))
    ∧ (dictGet (globalLogout sid).2.2.1 "Location" = none →
        (logout globalLogout newState session).1 = .error (.keyError "Location")) := by
  refine ⟨?_, ?_, ?_, ?_⟩
  · unfold logout
    rw [hsub]
    cases hloc : dictGet (globalLogout sid).2.2.1 "Location" <;> simp [hloc]
  · unfold logout
    rw [hsub]
    cases hloc : dictGet (globalLogout sid).2.2.1 "Location" <;>
      simp [hloc, runEvs, applyEv]
  · intro loc hloc
    unfold logout
    rw [hsub]
    simp [hloc]
  · intro hloc
    unfold logout
    rw [hsub]
    simp [hloc]

/-- Claim C8 witness. Concrete run: engine returns a `Location` header. -/
theorem c8_witness :
    ({ Session.empty with subjectId := some "subj" } : Session).subjectId
        = some "subj"
    ∧ (logout (fun _ => ("lid", "302 Found", [("Location", "https://idp/slo")], ""))
        "blob" { Session.empty with subjectId := some "subj" }).2 =
      [.engineCall "global_logout", .sync "blob"]
    ∧ (logout (fun _ => ("lid", "302 Found", [("Location", "https://idp/slo")], ""))
        "blob" { Session.empty with subjectId := some "subj" }).1
      = .ok (.redirect "https://idp/slo") :=
  ⟨rfl,
    (c8_logout_syncs_state_and_redirects_to_location
      (fun _ => ("lid", "302 Found", [("Location", "https://idp/slo")], ""))
      "blob" { Session.empty with subjectId := some "subj" } "subj" rfl).1,
    (c8_logout_syncs_state_and_redirects_to_location
      (fun _ => ("lid", "302 Found", [("Location", "https://idp/slo")], ""))
      "blob" { Session.empty with subjectId := some "subj" } "subj" rfl).2.2.1
      "https://idp/slo" rfl⟩

/-- Claim C5. For every `logout_service` Mode A invocation (`SAMLResponse`
present): the engine's protocol state is synced to the session regardless
of outcome (the `sync` event is in the trace of every branch); when the
engine result carries the success status `200 Ok` and a post-logout page
is configured, the session is flushed (clearing `subjectID`) and the view
redirects there; for a non-success status, or no engine result at all,
the view returns the generic logout-failure response with no redirect and
the session unchanged except for the persisted protocol state. -/
theorem c5_logout_service_mode_a
    (logoutResponse : String → Option (String × String))
    (logoutRequest : String → Option (List (String × String)) × Bool)
    (newState : String) (next_page : Option String)
    (req : LogoutSvcRequest) (session : Session) (p : String)
    (hresp : req.getSamlResponse = some p) :
    .sync newState ∈ (logout_service logoutResponse logoutRequest newState
        next_page req session).2
    ∧ (∀ r url, logoutResponse p = some r → r.2 = "200 Ok" →
        next_page = some url →
        logout_service logoutResponse logoutRequest newState next_page req session
          = (.ok (.redirect url),
             [.engineCall "logout_response", .sync newState, .flush])
        ∧ (runEvs session (logout_service logoutResponse logoutRequest newState
            next_page req session).2).subjectId = none)
    ∧ (∀ r, logoutResponse p = some r → r.2 ≠ "200 Ok" →
        logout_service logoutResponse logoutRequest newState next_page req session
          = (.ok (.ok "Error during logout"),
             [.engineCall "logout_response", .sync newState])
        ∧ runEvs session (logout_service logoutResponse logoutRequest newState
            next_page req session).2
          = { session with protocolState := some newState })
    ∧ (logoutResponse p = none →
        logout_service logoutResponse logoutRequest newState next_page req session
          = (.ok (.ok "Error during logout"),
             [.engineCall "logout_response", .sync newState])
        ∧ runEvs session (logout_service logoutResponse logoutRequest newState
            next_page req session).2
          = { session with protocolState := some newState }) := by
  refine ⟨?_, ?_, ?_, ?_⟩
  · unfold logout_service
    simp only [hresp]
    cases hr : logoutResponse p with
    | none => simp
    | some r =>
      by_cases hst : r.2 = "200 Ok" <;> simp [hst]
  · intro r url hr hst hnp
    have hres : logout_service logoutResponse logoutRequest newState next_page
        req session
        = (.ok (.redirect url),
           [.engineCall "logout_response", .sync newState, .flush]) := by
      unfold logout_service
      simp only [hresp, hr, hnp]
      simp [hst, djangoLogoutResponse]
    refine ⟨hres, ?_⟩
    rw [hres]
    simp [runEvs, applyEv, Session.empty]
  · intro r hr hst
    have hres : logout_service logoutResponse logoutRequest newState next_page
        req session
        = (.ok (.ok "Error during logout"),
           [.engineCall "logout_response", .sync newState]) := by
      unfold logout_service
      simp only [hresp, hr]
      simp [hst]
    refine ⟨hres, ?_⟩
    rw [hres]
    simp [runEvs, applyEv]
  · intro hr
    have hres : logout_service logoutResponse logoutRequest newState next_page
        req session
        = (.ok (.ok "Error during logout"),
           [.engineCall "logout_response", .sync newState]) := by
      unfold logout_service
      simp only [hresp, hr]
    refine ⟨hres, ?_⟩
    rw [hres]
    simp [runEvs, applyEv]

/-- Claim C5 witness. Concrete Mode A run with a success status and a
configured post-logout page. -/
theorem c5_witness :
    (⟨some "resp-payload", none⟩ : LogoutSvcRequest).getSamlResponse
        = some "resp-payload"
    ∧ logout_service (fun _ => some ("body", "200 Ok")) (fun _ => (none, false))
        "blob" (some "/bye") ⟨some "resp-payload", none⟩
        { Session.empty with subjectId := some "subj" }
      = (.ok (.redirect "/bye"),
         [.engineCall "logout_response", .sync "blob", .flush])
    ∧ (runEvs { Session.empty with subjectId := some "subj" }
        (logout_service (fun _ => some ("body", "200 Ok")) (fun _ => (none, false))
          "blob" (some "/bye") ⟨some "resp-payload", none⟩
          { Session.empty with subjectId := some "subj" }).2).subjectId = none :=
  ⟨rfl,
    ((c5_logout_service_mode_a (fun _ => some ("body", "200 Ok"))
      (fun _ => (none, false)) "blob" (some "/bye") ⟨some "resp-payload", none⟩
      { Session.empty with subjectId := some "subj" } "resp-payload" rfl).2.1
      ("body", "200 Ok") "/bye" rfl rfl rfl).1,
    ((c5_logout_service_mode_a (fun _ => some ("body", "200 Ok"))
      (fun _ => (none, false)) "blob" (some "/bye") ⟨some "resp-payload", none⟩
      { Session.empty with subjectId := some "subj" } "resp-payload" rfl).2.1
      ("body", "200 Ok") "/bye" rfl rfl rfl).2⟩

/-- Claim C4. For every `logout_service` Mode B invocation (`SAMLRequest`
present, `SAMLResponse` absent) with a stored subject identifier: when
the engine reports `success = true` (its response headed by a `Location`
pair) the session is flushed — clearing `subjectID` — and the view
redirects to that location; when `success = false` but the response is
non-empty it redirects to that location with `subjectID` left unchanged;
when `success = false` and the response is empty (`None`) it returns the
generic logout-failure response with no redirect (the `success = true` /
empty-response combination is outside the engine's contract: there the
code raises instead). -/
theorem c4_logout_service_mode_b
    (logoutResponse : String → Option (String × String))
    (logoutRequest : String → Option (List (String × String)) × Bool)
    (newState : String) (next_page : Option String)
    (req : LogoutSvcRequest) (session : Session) (p sid : String)
    (hresp : req.getSamlResponse = none)
    (hreq : req.getSamlRequest = some p)
    (hsub : session.subjectId = some sid) :
    (∀ url rest, logoutRequest sid = (some (("Location", url) :: rest), true) →
      (logout_service logoutResponse logoutRequest newState next_page req session).1
        = .ok (.redirect url)
      ∧ (runEvs session (logout_service logoutResponse logoutRequest newState
          next_page req session).2).subjectId = none)
    ∧ (∀ url rest, logoutRequest sid = (some (("Location", url) :: rest), false) →
      (logout_service logoutResponse logoutRequest newState next_page req session).1
        = .ok (.redirect url)
      ∧ (runEvs session (logout_service logoutResponse logoutRequest newState
          next_page req session).2).subjectId = some sid)
    ∧ (logoutRequest sid = (none, false) →
      logout_service logoutResponse logoutRequest newState next_page req session
        = (.ok (.ok "Error during logout"),
           [.engineCall "logout_request", .sync newState])) := by
  refine ⟨?_, ?_, ?_⟩
  · intro url rest heng
    have hres : logout_service logoutResponse logoutRequest newState next_page
        req session
        = (.ok (.redirect url),
           [.engineCall "logout_request", .sync newState, .flush]) := by
      unfold logout_service
      simp only [hresp, hreq, hsub, heng]
      simp
    refine ⟨by rw [hres], ?_⟩
    rw [hres]
    simp [runEvs, applyEv, Session.empty]
  · intro url rest heng
    have hres : logout_service logoutResponse logoutRequest newState next_page
        req session
        = (.ok (.redirect url),
           [.engineCall "logout_request", .sync newState]) := by
      unfold logout_service
      simp only [hresp, hreq, hsub, heng]
      simp
    refine ⟨by rw [hres], ?_⟩
    rw [hres]
    simp [runEvs, applyEv, hsub]
  · intro heng
    unfold logout_service
    simp only [hresp, hreq, hsub, heng]

/-- Claim C4 witness. Concrete Mode B soft-failure run: `success = false`
with a non-empty response redirects while preserving `subjectID`. -/
theorem c4_witness :
    ({ Session.empty with subjectId := some "subj" } : Session).subjectId
        = some "subj"
    ∧ (logout_service (fun _ => none)
        (fun _ => (some [("Location", "https://idp/slo-back")], false))
        "blob" none ⟨none, some "req-payload"⟩
        { Session.empty with subjectId := some "subj" }).1
      = .ok (.redirect "https://idp/slo-back")
    ∧ (runEvs { Session.empty with subjectId := some "subj" }
        (logout_service (fun _ => none)
          (fun _ => (some [("Location", "https://idp/slo-back")], false))
          "blob" none ⟨none, some "req-payload"⟩
          { Session.empty with subjectId := some "subj" }).2).subjectId
      = some "subj" :=
  ⟨rfl,
    ((c4_logout_service_mode_b (fun _ => none)
      (fun _ => (some [("Location", "https://idp/slo-back")], false)) "blob" none
      ⟨none, some "req-payload"⟩ { Session.empty with subjectId := some "subj" }
      "req-payload" "subj" rfl rfl rfl).2.1 "https://idp/slo-back" [] rfl).1,
    ((c4_logout_service_mode_b (fun _ => none)
      (fun _ => (some [("Location", "https://idp/slo-back")], false)) "blob" none
      ⟨none, some "req-payload"⟩ { Session.empty with subjectId := some "subj" }
      "req-payload" "subj" rfl rfl rfl).2.1 "https://idp/slo-back" [] rfl).2⟩

/-- Claim C7. For every `assertion_consumer_service` invocation in which the
engine validates the response and the authentication backend resolves a
local principal, the view sets `subjectID` to the asserted name
identifier, emits the `post_authenticated` notification whose subscriber
outcome never influences the result (`send_robust` catches receiver
failures), and redirects to the `RelayState` value of the POST body,
defaulting to the site root `/` when it is absent. -/
theorem c7_acs_success_sets_subject_and_redirects_to_relay
    (settings : Settings)
    (engineResponse : String → List (String × String) → Option ValidatedResponse)
    (backendAuth : SessionInfo → AttributeMapping → Bool → Option String)
    (sub : Except String Unit)
    (am : PerCall AttributeMapping) (cu : PerCall Bool)
    (req : AcsRequest) (session : Session)
    (p : String) (resp : ValidatedResponse) (user : String)
    (hm : req.method = "POST")
    (hp : req.postSamlResponse = some p)
    (he : engineResponse p session.outstandingQueries = some resp)
    (hb : backendAuth resp.sessionInfo
        (resolvePerCall List.isEmpty am
          (get_custom_setting settings.samlAttributeMapping [("uid", ["username"])]))
        (resolvePerCall (fun b => !b) cu
          (get_custom_setting settings.samlCreateUnknownUser true))
      = some user) :
    assertion_consumer_service settings engineResponse backendAuth sub am cu
        req session
      = (.ok (.redirect (req.postRelayState.getD "/")),
         [.engineCall "response", .oqDelete resp.sessionId,
          .authLogin user, .setSubjectId resp.sessionInfo.nameId, .signalEmit])
    ∧ (runEvs session (assertion_consumer_service settings engineResponse
        backendAuth sub am cu req session).2).subjectId
      = some resp.sessionInfo.nameId
    ∧ .signalEmit ∈ (assertion_consumer_service settings engineResponse
        backendAuth sub am cu req session).2
    ∧ (∀ sub2, assertion_consumer_service settings engineResponse backendAuth
        sub2 am cu req session
      = assertion_consumer_service settings engineResponse backendAuth sub am cu
        req session)
    ∧ (req.postRelayState = none →
        (assertion_consumer_service settings engineResponse backendAuth sub am cu
          req session).1 = .ok (.redirect "/")) := by
  have hres : assertion_consumer_service settings engineResponse backendAuth sub
      am cu req session
      = (.ok (.redirect (req.postRelayState.getD "/")),
         [.engineCall "response", .oqDelete resp.sessionId,
          .authLogin user, .setSubjectId resp.sessionInfo.nameId, .signalEmit]) := by
    unfold assertion_consumer_service
    simp [hm, hp, he, hb]
  refine ⟨hres, ?_, ?_, ?_, ?_⟩
  · rw [hres]
    simp [runEvs, applyEv]
  · rw [hres]
    simp
  · intro sub2
    rfl
  · intro hrelay
    rw [hres, hrelay]
    rfl

/-- Claim C7 witness. Concrete successful run with no `RelayState` in the
POST body: redirect to the site root. -/
theorem c7_witness :
    (⟨"POST", some "enc-resp", none⟩ : AcsRequest).method = "POST"
    ∧ (assertion_consumer_service ⟨"/", none, none, none⟩
        (fun _ _ => some ⟨"id-1", ⟨"name-xyz", [("uid", ["alice"])]⟩⟩)
        (fun _ _ _ => some "alice") (.error "subscriber blew up")
        .absent .absent ⟨"POST", some "enc-resp", none⟩ Session.empty).1
      = .ok (.redirect "/")
    ∧ (runEvs Session.empty (assertion_consumer_service ⟨"/", none, none, none⟩
        (fun _ _ => some ⟨"id-1", ⟨"name-xyz", [("uid", ["alice"])]⟩⟩)
        (fun _ _ _ => some "alice") (.error "subscriber blew up")
        .absent .absent ⟨"POST", some "enc-resp", none⟩ Session.empty).2).subjectId
      = some "name-xyz" :=
  ⟨rfl,
    (c7_acs_success_sets_subject_and_redirects_to_relay ⟨"/", none, none, none⟩
      (fun _ _ => some ⟨"id-1", ⟨"name-xyz", [("uid", ["alice"])]⟩⟩)
      (fun _ _ _ => some "alice") (.error "subscriber blew up") .absent .absent
      ⟨"POST", some "enc-resp", none⟩ Session.empty "enc-resp"
      ⟨"id-1", ⟨"name-xyz", [("uid", ["alice"])]⟩⟩ "alice"
      rfl rfl rfl rfl).2.2.2.2 rfl,
    (c7_acs_success_sets_subject_and_redirects_to_relay ⟨"/", none, none, none⟩
      (fun _ _ => some ⟨"id-1", ⟨"name-xyz", [("uid", ["alice"])]⟩⟩)
      (fun _ _ _ => some "alice") (.error "subscriber blew up") .absent .absent
      ⟨"POST", some "enc-resp", none⟩ Session.empty "enc-resp"
      ⟨"id-1", ⟨"name-xyz", [("uid", ["alice"])]⟩⟩ "alice"
      rfl rfl rfl rfl).2.1⟩

/-- Claim C10. An explicitly supplied falsy per-call configuration value is
indistinguishable from supplying no value: `assertion_consumer_service`
with `attribute_mapping` given as the empty map, or `create_unknown_user`
given as `false`, behaves exactly as with the argument absent (the
configured or built-in default replaces it); and `metadata` with a
supplied validity of `0` hours behaves as with no value, using the
built-in default of 24 hours when no `SAML_VALID_FOR` setting is
configured. -/
theorem c10_falsy_per_call_values_replaced_by_default :
    (∀ (settings : Settings)
      (engineResponse : String → List (String × String) → Option ValidatedResponse)
      (backendAuth : SessionInfo → AttributeMapping → Bool → Option String)
      (sub : Except String Unit) (cu : PerCall Bool) (req : AcsRequest)
      (session : Session),
      assertion_consumer_service settings engineResponse backendAuth sub
          (.static []) cu req session
        = assertion_consumer_service settings engineResponse backendAuth sub
          .absent cu req session)
    ∧ (∀ (settings : Settings)
      (engineResponse : String → List (String × String) → Option ValidatedResponse)
      (backendAuth : SessionInfo → AttributeMapping → Bool → Option String)
      (sub : Except String Unit) (am : PerCall AttributeMapping)
      (req : AcsRequest) (session : Session),
      assertion_consumer_service settings engineResponse backendAuth sub am
          (.static false) req session
        = assertion_consumer_service settings engineResponse backendAuth sub am
          .absent req session)
    ∧ (∀ (entityDescriptor : Nat → String) (samlValidFor : Option Nat),
      metadata entityDescriptor samlValidFor (some 0)
        = metadata entityDescriptor samlValidFor none)
    ∧ (∀ entityDescriptor : Nat → String,
      metadata entityDescriptor none (some 0)
        = (.ok (.content (entityDescriptor 24) "text/xml; charset=utf8"), [])) := by
  refine ⟨?_, ?_, ?_, ?_⟩
  · intro settings engineResponse backendAuth sub cu req session
    unfold assertion_consumer_service
    simp [resolvePerCall]
  · intro settings engineResponse backendAuth sub am req session
    unfold assertion_consumer_service
    simp [resolvePerCall]
  · intro entityDescriptor samlValidFor
    unfold metadata
    simp [pyOrNat]
  · intro entityDescriptor
    unfold metadata
    simp [pyOrNat, get_custom_setting]

/-! ## Helper lemmas for the outstanding-query exclusivity claim -/

/-- The `login` view never deletes an outstanding query. -/
theorem login_oqDelete_not_mem (k : String) (st : Settings)
    (idps : List (String × String))
    (auth : Except String (String × List String)) (req : LoginRequest) :
    Ev.oqDelete k ∉ (login st idps auth req).2 := by
  unfold login
  by_cases h1 : req.userIsAnonymous = false
  · simp [h1]
  · by_cases h2 : (req.idpParam.isNone && decide (idps.length > 1)) = true
    · simp [h1, h2]
    · rcases auth with e | ⟨s, r⟩
      · simp [h1, h2]
      · by_cases h3 : r.length = 2
        · by_cases h4 : r.head?.getD "" = "Location" <;> simp [h1, h2, h3, h4]
        · simp [h1, h2, h3]

/-- The `logout` view never deletes an outstanding query. -/
theorem logout_oqDelete_not_mem (k : String)
    (gl : String → String × String × List (String × String) × String)
    (ns : String) (s : Session) :
    Ev.oqDelete k ∉ (logout gl ns s).2 := by
  obtain ⟨subj, oq, ic, ps, au⟩ := s
  cases subj with
  | none => simp [logout]
  | some sid =>
    cases h : dictGet (gl sid).2.2.1 "Location" <;> simp [logout, h]

/-- The `logout_service` view never deletes an outstanding query. -/
theorem logout_service_oqDelete_not_mem (k : String)
    (lr : String → Option (String × String))
    (lq : String → Option (List (String × String)) × Bool)
    (ns : String) (np : Option String) (r : LogoutSvcRequest) (s : Session) :
    Ev.oqDelete k ∉ (logout_service lr lq ns np r s).2 := by
  obtain ⟨sresp, sreq⟩ := r
  cases sresp with
  | some p =>
    cases h : lr p with
    | none => simp [logout_service, h]
    | some rr => by_cases hst : rr.2 = "200 Ok" <;> simp [logout_service, h, hst]
  | none =>
    cases sreq with
    | none => simp [logout_service]
    | some p =>
      obtain ⟨subj, oq, ic, ps, au⟩ := s
      cases subj with
      | none => simp [logout_service]
      | some sid =>
        rcases h : lq sid with ⟨resp, succ⟩
        cases succ
        · cases resp with
          | none => simp [logout_service, h]
          | some l =>
            cases l with
            | nil => simp [logout_service, h]
            | cons hd tl =>
              obtain ⟨hk, hv⟩ := hd
              by_cases hL : hk = "Location" <;> simp [logout_service, h, hL]
        · cases resp with
          | none => simp [logout_service, h]
          | some l =>
            cases l with
            | nil => simp [logout_service, h]
            | cons hd tl =>
              obtain ⟨hk, hv⟩ := hd
              by_cases hL : hk = "Location" <;> simp [logout_service, h, hL]

/-- The `echo_attributes` view never deletes an outstanding query. -/
theorem echo_attributes_oqDelete_not_mem (k : String)
    (gi : String → AttributeMapping × List String) (s : Session) :
    Ev.oqDelete k ∉ (echo_attributes gi s).2 := by
  obtain ⟨subj, oq, ic, ps, au⟩ := s
  cases subj <;> simp [echo_attributes]

/-- The `metadata` view never deletes an outstanding query. -/
theorem metadata_oqDelete_not_mem (k : String) (ed : Nat → String)
    (sv vf : Option Nat) :
    Ev.oqDelete k ∉ (metadata ed sv vf).2 := by
  simp [metadata]

/-- When the engine validates the response, `assertion_consumer_service`
deletes the outstanding query keyed by the response's correlation
identifier — on both the backend-success and backend-failure paths — and
the entry is gone (not overwritten) from the resulting session. -/
theorem acs_engine_success_removes_query (st : Settings)
    (er : String → List (String × String) → Option ValidatedResponse)
    (ba : SessionInfo → AttributeMapping → Bool → Option String)
    (sub : Except String Unit) (am : PerCall AttributeMapping)
    (cu : PerCall Bool) (areq : AcsRequest) (s : Session)
    (p : String) (resp : ValidatedResponse)
    (hm : areq.method = "POST") (hp : areq.postSamlResponse = some p)
    (he : er p s.outstandingQueries = some resp) :
    Ev.oqDelete resp.sessionId
      ∈ (assertion_consumer_service st er ba sub am cu areq s).2
    ∧ alistGet (runEvs s (assertion_consumer_service st er ba sub am cu
        areq s).2).outstandingQueries resp.sessionId = none := by
  unfold assertion_consumer_service
  cases hba : ba resp.sessionInfo
      (resolvePerCall List.isEmpty am
        (get_custom_setting st.samlAttributeMapping [("uid", ["username"])]))
      (resolvePerCall (fun b => !b) cu
        (get_custom_setting st.samlCreateUnknownUser true)) with
  | none =>
    refine ⟨?_, ?_⟩ <;> simp [hm, hp, he, hba, runEvs, applyEv, alistGet_oqRemove]
  | some user =>
    refine ⟨?_, ?_⟩ <;> simp [hm, hp, he, hba, runEvs, applyEv, alistGet_oqRemove]

/-- The view `assertion_consumer_service` deletes an outstanding query only when
its payload was engine-validated to a response carrying that exact
correlation identifier. -/
theorem acs_oqDelete_only_from_matching_response (st : Settings)
    (er : String → List (String × String) → Option ValidatedResponse)
    (ba : SessionInfo → AttributeMapping → Bool → Option String)
    (sub : Except String Unit) (am : PerCall AttributeMapping)
    (cu : PerCall Bool) (areq : AcsRequest) (s : Session) (k : String)
    (h : Ev.oqDelete k ∈ (assertion_consumer_service st er ba sub am cu areq s).2) :
    ∃ p resp, areq.postSamlResponse = some p
      ∧ er p s.outstandingQueries = some resp ∧ resp.sessionId = k := by
  by_cases hm : areq.method = "POST"
  · cases hp : areq.postSamlResponse with
    | none =>
      unfold assertion_consumer_service at h
      simp [hm, hp] at h
    | some p =>
      cases he : er p s.outstandingQueries with
      | none =>
        unfold assertion_consumer_service at h
        simp [hm, hp, he] at h
      | some resp =>
        cases hba : ba resp.sessionInfo
            (resolvePerCall List.isEmpty am
              (get_custom_setting st.samlAttributeMapping [("uid", ["username"])]))
            (resolvePerCall (fun b => !b) cu
              (get_custom_setting st.samlCreateUnknownUser true)) with
        | none =>
          unfold assertion_consumer_service at h
          simp [hm, hp, he, hba] at h
          exact ⟨p, resp, rfl, he, h.symm⟩
        | some user =>
          unfold assertion_consumer_service at h
          simp [hm, hp, he, hba] at h
          exact ⟨p, resp, rfl, he, h.symm⟩
  · unfold assertion_consumer_service at h
    simp [hm] at h

/-- Claim C1. In every login flow the correlation identifier issued by the
engine at `login` time is the key under which the outstanding query is
recorded and retrievable; an `assertion_consumer_service` call whose
engine-validated response carries that same identifier removes exactly
that entry (gone, not overwritten); no other view (`login`, `logout`,
`logout_service`, `echo_attributes`, `metadata`) ever deletes an
outstanding-query entry; and `assertion_consumer_service` deletes an
entry only for the correlation identifier of an engine-validated
("successful") response. -/
theorem c1_outstanding_query_roundtrip_exclusive_removal
    (settings : Settings) (idps : List (String × String))
    (req : LoginRequest) (sid loc : String) (session : Session)
    (hanon : req.userIsAnonymous = true)
    (hsel : ¬(req.idpParam.isNone && decide (idps.length > 1)) = true) :
    login settings idps (.ok (sid, ["Location", loc])) req
      = (.ok (.redirect loc),
         [.engineCall "authenticate",
          .oqSet sid (req.nextParam.getD settings.loginRedirectUrl)])
    ∧ alistGet (runEvs session (login settings idps
        (.ok (sid, ["Location", loc])) req).2).outstandingQueries sid
      = some (req.nextParam.getD settings.loginRedirectUrl)
    ∧ (∀ (er : String → List (String × String) → Option ValidatedResponse)
        (ba : SessionInfo → AttributeMapping → Bool → Option String)
        (sub : Except String Unit) (am : PerCall AttributeMapping)
        (cu : PerCall Bool) (areq : AcsRequest) (payload : String)
        (resp : ValidatedResponse),
        areq.method = "POST" → areq.postSamlResponse = some payload →
        er payload (runEvs session (login settings idps
          (.ok (sid, ["Location", loc])) req).2).outstandingQueries = some resp →
        resp.sessionId = sid →
        Ev.oqDelete sid ∈ (assertion_consumer_service settings er ba sub am cu
          areq (runEvs session (login settings idps
            (.ok (sid, ["Location", loc])) req).2)).2
        ∧ alistGet (runEvs (runEvs session (login settings idps
              (.ok (sid, ["Location", loc])) req).2)
            (assertion_consumer_service settings er ba sub am cu areq
              (runEvs session (login settings idps
                (.ok (sid, ["Location", loc])) req).2)).2).outstandingQueries sid
          = none)
    ∧ (∀ k st2 idps2 auth2 req2, Ev.oqDelete k ∉ (login st2 idps2 auth2 req2).2)
    ∧ (∀ k gl ns s, Ev.oqDelete k ∉ (logout gl ns s).2)
    ∧ (∀ k lr lq ns np r s, Ev.oqDelete k ∉ (logout_service lr lq ns np r s).2)
    ∧ (∀ k gi s, Ev.oqDelete k ∉ (echo_attributes gi s).2)
    ∧ (∀ k ed sv vf, Ev.oqDelete k ∉ (metadata ed sv vf).2)
    ∧ (∀ st2 er ba sub am cu areq s k,
        Ev.oqDelete k ∈ (assertion_consumer_service st2 er ba sub am cu areq s).2 →
        ∃ p resp, areq.postSamlResponse = some p
          ∧ er p s.outstandingQueries = some resp ∧ resp.sessionId = k) := by
  have hlog : login settings idps (.ok (sid, ["Location", loc])) req
      = (.ok (.redirect loc),
         [.engineCall "authenticate",
          .oqSet sid (req.nextParam.getD settings.loginRedirectUrl)]) := by
    unfold login
    simp [hanon, hsel]
  refine ⟨hlog, ?_, ?_, login_oqDelete_not_mem, logout_oqDelete_not_mem,
    logout_service_oqDelete_not_mem, echo_attributes_oqDelete_not_mem,
    metadata_oqDelete_not_mem, ?_⟩
  · rw [hlog]
    simp [runEvs, applyEv, alistGet_oqInsert]
  · intro er ba sub am cu areq payload resp hm hp he hsid
    have h2 := acs_engine_success_removes_query settings er ba sub am cu areq
      (runEvs session (login settings idps (.ok (sid, ["Location", loc])) req).2)
      payload resp hm hp he
    rw [hsid] at h2
    exact h2
  · intro st2 er ba sub am cu areq s k h
    exact acs_oqDelete_only_from_matching_response st2 er ba sub am cu areq s k h

/-- Claim C1 witness. Concrete round trip: one configured IdP, the engine
issues `id-1` at login, the follow-up ACS response carries `id-1` and the
entry is removed from the session. -/
theorem c1_witness :
    (⟨true, some "/dashboard", some "idp1"⟩ : LoginRequest).userIsAnonymous = true
    ∧ login ⟨"/", none, none, none⟩ [("idp1", "IdP One")]
        (.ok ("id-1", ["Location", "https://idp/sso"]))
        ⟨true, some "/dashboard", some "idp1"⟩
      = (.ok (.redirect "https://idp/sso"),
         [.engineCall "authenticate", .oqSet "id-1" "/dashboard"])
    ∧ (Ev.oqDelete "id-1" ∈ (assertion_consumer_service ⟨"/", none, none, none⟩
        (fun _ _ => some ⟨"id-1", ⟨"name-xyz", []⟩⟩) (fun _ _ _ => some "alice")
        (.ok ()) .absent .absent ⟨"POST", some "enc", none⟩
        (runEvs Session.empty (login ⟨"/", none, none, none⟩ [("idp1", "IdP One")]
          (.ok ("id-1", ["Location", "https://idp/sso"]))
          ⟨true, some "/dashboard", some "idp1"⟩).2)).2
      ∧ alistGet (runEvs (runEvs Session.empty (login ⟨"/", none, none, none⟩
            [("idp1", "IdP One")] (.ok ("id-1", ["Location", "https://idp/sso"]))
            ⟨true, some "/dashboard", some "idp1"⟩).2)
          (assertion_consumer_service ⟨"/", none, none, none⟩
            (fun _ _ => some ⟨"id-1", ⟨"name-xyz", []⟩⟩) (fun _ _ _ => some "alice")
            (.ok ()) .absent .absent ⟨"POST", some "enc", none⟩
            (runEvs Session.empty (login ⟨"/", none, none, none⟩
              [("idp1", "IdP One")] (.ok ("id-1", ["Location", "https://idp/sso"]))
              ⟨true, some "/dashboard", some "idp1"⟩).2)).2).outstandingQueries
          "id-1"
        = none) :=
  ⟨rfl,
    (c1_outstanding_query_roundtrip_exclusive_removal ⟨"/", none, none, none⟩
      [("idp1", "IdP One")] ⟨true, some "/dashboard", some "idp1"⟩ "id-1"
      "https://idp/sso" Session.empty rfl (by decide)).1,
    (c1_outstanding_query_roundtrip_exclusive_removal ⟨"/", none, none, none⟩
      [("idp1", "IdP One")] ⟨true, some "/dashboard", some "idp1"⟩ "id-1"
      "https://idp/sso" Session.empty rfl (by decide)).2.2.1
      (fun _ _ => some ⟨"id-1", ⟨"name-xyz", []⟩⟩) (fun _ _ _ => some "alice")
      (.ok ()) .absent .absent ⟨"POST", some "enc", none⟩ "enc"
      ⟨"id-1", ⟨"name-xyz", []⟩⟩ rfl rfl rfl rfl⟩

end Djangosaml2
